import Mathlib

/-!
Verification development for the Simpl installer (`src/install.js` and the
cached variant in `src/unnamed/part_001`).  The JavaScript source is shallowly
embedded: the filesystem, the network and the archive tool are passed in as
explicit environment functions, recursion that the source performs over an
unbounded redirect chain is made total with a fuel parameter, and each
embedded definition carries a comment pointing at the source lines it
translates.
-/

namespace SimplInstaller

/-- `CDN_BASE` constant, `src/install.js` line 16 / `part_001` line 16. -/
def CDN_BASE : String := "https://cdn.simpl.iwanvanderwal.nl/framework"

/-- The archive URL built by `downloadFramework`
(`src/install.js` line 165, `part_001` line 182): the version string is
interpolated verbatim, with no validation. -/
def zipUrl (version : String) : String :=
  CDN_BASE ++ "/" ++ version ++ "/src.zip"

/-- The local-cache bundle path `path.join(LOCAL_RELEASES_DIR, version, 'src.zip')`
(`part_001` line 170); `path.join` is modelled with the `/` separator. -/
def localZipPath (releasesDir version : String) : String :=
  releasesDir ++ "/" ++ version ++ "/src.zip"

/-! ## Name Validator (`validateProjectName`, `src/install.js` lines 127-132) -/

/-- The spec's error taxonomy for validation failures; each constructor
corresponds to one message string returned by `validateProjectName`:
`EmptyName` ↔ "Project name cannot be empty",
`InvalidCharacters` ↔ "Project name can only contain letters, numbers,
hyphens, and underscores", `DirectoryExists` ↔ "Directory ... already exists". -/
inductive ValidationError
  | EmptyName
  | InvalidCharacters
  | DirectoryExists
deriving DecidableEq

/-- Membership in the character class of the regex `/^[a-zA-Z0-9_-]+$/`
(`src/install.js` line 129). -/
def isValidNameChar (c : Char) : Bool :=
  ('a' ≤ c && c ≤ 'z') || ('A' ≤ c && c ≤ 'Z') || ('0' ≤ c && c ≤ '9') ||
    c == '_' || c == '-'

/-- `/^[a-zA-Z0-9_-]+$/.test(name)`: the regex (unanchored-group free, fully
anchored, no flags) accepts exactly the non-empty strings all of whose
characters lie in the class. -/
def nameRegexTest (name : String) : Bool :=
  name ≠ "" && name.toList.all isValidNameChar

/-- `validateProjectName` (`src/install.js` lines 127-132).  The filesystem is
passed in as `fsExists` (embedding `fs.existsSync`); `name` is an
`Option String` so that an absent (JS `undefined`) name is representable, and
`!name || name.length === 0` maps `none` and `some ""` to `EmptyName`. -/
def validateProjectName (fsExists : String → Bool) (name : Option String) :
    Option ValidationError :=
  match name with
  | none => some ValidationError.EmptyName
  | some n =>
    if n.length = 0 then some ValidationError.EmptyName
    else if !nameRegexTest n then some ValidationError.InvalidCharacters
    else if fsExists n then some ValidationError.DirectoryExists
    else none

/-! ## Filesystem trees, `countFiles` and the Archive Materializer -/

/-- A directory tree: the state of an extracted archive or of the target
directory.  Entries pair a name with a subtree. -/
inductive FsTree
  | file (content : String)
  | dir (entries : List (String × FsTree))

mutual
/-- `countFiles` (`src/install.js` lines 134-145): directories contribute
their recursive count, files contribute 1. -/
def countFiles : FsTree → Nat
  | FsTree.file _ => 1
  | FsTree.dir es => countFilesList es

/-- The `forEach` fold inside `countFiles`. -/
def countFilesList : List (String × FsTree) → Nat
  | [] => 0
  | e :: es => countFiles e.2 + countFilesList es
end

/-- The wrapper normalization of `extractZip` (`src/install.js` line 157 and
`part_001` lines 147-153): if the extracted top level holds exactly one entry
and it is a directory (`entries.length === 1 && entries[0].isDirectory()`),
that directory's contents are the payload; otherwise the top level itself is. -/
def sourceEntries (extracted : List (String × FsTree)) : List (String × FsTree) :=
  match extracted with
  | [(_, FsTree.dir es)] => es
  | _ => extracted

/-- End state of `extractZip` on a fresh destination directory
(`src/install.js` lines 147-162: extract into `__temp_extract__`, pick
`sourceDir` by the wrapper rule, `renameSync` every top-level item into
`destDir`, remove the staging directory; the in-place variant in `part_001`
lines 141-154 reaches the same tree).  `archiveTop` is the archive's extracted
top level; the result is the destination directory's tree. -/
def extractZip (archiveTop : List (String × FsTree)) : FsTree :=
  FsTree.dir (sourceEntries archiveTop)

/-- The Archive Materializer as a whole: `extractZip` followed by the
`countFiles(targetDir)` call of `downloadFramework`
(`src/install.js` lines 173-177). -/
def materialize (archiveTop : List (String × FsTree)) : FsTree × Nat :=
  let t := extractZip archiveTop
  (t, countFiles t)

/-! ## Transport: `fetchUrl` (`src/install.js` lines 20-29) -/

/-- An HTTP response as observed by the installer: status line, the
`Location` header used for redirects, the rate-limit-reset header (present on
some 403 responses), and the accumulated body. -/
structure HttpResponse where
  statusCode : Nat
  statusMessage : String
  location : Option String
  rateLimitReset : Option Nat
  body : String
deriving DecidableEq

/-- What the network does for one `https.get`: deliver a response, or emit
the request's `error` event. -/
inductive HttpEvent
  | response (r : HttpResponse)
  | connError (msg : String)
deriving DecidableEq

/-- Settled outcome of `fetchUrl`.  The code only ever produces `ok`,
`transportError` and `netError`; `rateLimited` is the spec's additional
classification (never produced by the source, see the C5 theorems), and
`pending` models a promise that never settles within the given fuel. -/
inductive FetchResult
  | ok (body : String)
  | transportError (statusCode : Nat) (message : String)
  | rateLimited (resetTime : Nat)
  | netError (msg : String)
  | pending
deriving DecidableEq

/-- `res.statusMessage || 'Request failed'` (`src/install.js` line 23). -/
def statusMessageOr (m : String) : String :=
  if m = "" then "Request failed" else m

/-- `fetchUrl` (`src/install.js` lines 20-29), with the network passed in as
`net` and the recursion over the redirect chain made total by fuel (the JS
recursion has no depth limit; every sufficiently large fuel yields the code's
behavior).  Besides the settled result it returns the number of `https.get`
requests performed.  A 301/302 without a `Location` header is modelled as
`pending` (the source would issue a request to an undefined URL; no claim
exercises this corner). -/
def fetchUrl (net : String → HttpEvent) : Nat → String → FetchResult × Nat
  | 0, _ => (FetchResult.pending, 0)
  | (fuel+1), url =>
    match net url with
    | HttpEvent.connError m => (FetchResult.netError m, 1)
    | HttpEvent.response r =>
      if r.statusCode = 302 ∨ r.statusCode = 301 then
        match r.location with
        | some next =>
          let p := fetchUrl net fuel next
          (p.1, p.2 + 1)
        | none => (FetchResult.pending, 1)
      else if r.statusCode ≠ 200 then
        (FetchResult.transportError r.statusCode (statusMessageOr r.statusMessage), 1)
      else
        (FetchResult.ok r.body, 1)

/-- `net` serves, starting at `url`, a chain of `n` redirect hops (each a
301/302 carrying a `Location` header) ending in a 200 response with body
`body`. -/
inductive RedirectChain (net : String → HttpEvent) :
    String → Nat → String → Prop
  | final {url : String} {r : HttpResponse} :
      net url = HttpEvent.response r → r.statusCode = 200 →
      RedirectChain net url 0 r.body
  | hop {url next : String} {r : HttpResponse} {n : Nat} {body : String} :
      net url = HttpEvent.response r →
      (r.statusCode = 302 ∨ r.statusCode = 301) →
      r.location = some next →
      RedirectChain net next n body →
      RedirectChain net url (n + 1) body

/-- `net` serves, starting at `url`, a chain of `n` redirect hops ending in
the non-redirect response `r` (of any status). -/
inductive ResolvesTo (net : String → HttpEvent) :
    String → Nat → HttpResponse → Prop
  | final {url : String} {r : HttpResponse} :
      net url = HttpEvent.response r →
      ¬(r.statusCode = 302 ∨ r.statusCode = 301) →
      ResolvesTo net url 0 r
  | hop {url next : String} {r rEnd : HttpResponse} {n : Nat} :
      net url = HttpEvent.response r →
      (r.statusCode = 302 ∨ r.statusCode = 301) →
      r.location = some next →
      ResolvesTo net next n rEnd →
      ResolvesTo net url (n + 1) rEnd

/-! ## Transport: `downloadFile` (`src/install.js` lines 31-58) -/

/-- What the network and the write stream do for one `https.get` of
`downloadFile`: a response, the request's `error` event, or the destination
write stream's `error` event. -/
inductive DlEvent
  | response (r : HttpResponse)
  | connError (msg : String)
  | writeError (msg : String)
deriving DecidableEq

/-- Settled outcome of `downloadFile` (its promise resolves with no value;
the payload lives in the destination file). -/
inductive DlResult
  | ok
  | err (msg : String)
  | pending
deriving DecidableEq

/-- `downloadFile` (`src/install.js` lines 31-58): returns the settled
outcome together with the final state of the destination path (`none` =
no file, `some c` = a file with contents `c`).  Branches, in source order:
301/302 → `fs.unlinkSync(dest)` then recurse on the `Location` URL (the
recursive call recreates the write stream); other non-200 → unlink and
reject; request `error` → unlink and reject; write-stream `error` → unlink
and reject; 200 → the body is piped to `dest` and the promise resolves on
`finish`.  Fuel only bounds the redirect recursion; a redirect without a
`Location` header is modelled as `pending` with the freshly created empty
file (the source would fire a request at an undefined URL). -/
def downloadFile (net : String → DlEvent) : Nat → String → DlResult × Option String
  | 0, _ => (DlResult.pending, some "")
  | (fuel+1), url =>
    match net url with
    | DlEvent.connError m => (DlResult.err m, none)
    | DlEvent.writeError m => (DlResult.err m, none)
    | DlEvent.response r =>
      if r.statusCode = 302 ∨ r.statusCode = 301 then
        match r.location with
        | some next => downloadFile net fuel next
        | none => (DlResult.pending, some "")
      else if r.statusCode ≠ 200 then
        (DlResult.err ("HTTP " ++ toString r.statusCode ++ ": " ++
            statusMessageOr r.statusMessage), none)
      else
        (DlResult.ok, some r.body)

/-! ## Probe: `checkServerAvailability` (`part_001` lines 156-166) -/

/-- Outcome of the probe's single bounded-timeout GET: a response with some
status, the request's `error` event, or the 5-second timeout firing. -/
inductive ProbeOutcome
  | response (statusCode : Nat)
  | connError
  | timeout
deriving DecidableEq

/-- `checkServerAvailability` (`part_001` lines 156-166): resolves
`res.statusCode === 200` on a response, `false` on `error`, and `false`
(after destroying the request) on `timeout`.  It is a total function into
`Bool`: it has no rejection path. -/
def checkServerAvailability : ProbeOutcome → Bool
  | ProbeOutcome.response c => c == 200
  | ProbeOutcome.connError => false
  | ProbeOutcome.timeout => false

/-! ## Pipelines: `downloadFramework` in both variants -/

/-- What `unzip`/`Expand-Archive` does with given archive bytes
(`execAsync` call inside `extractZip`): succeed with an extracted top level,
or reject; on rejection `leftover` records whether a partial extraction
directory was left behind by the tool. -/
inductive ExtractOutcome
  | ok (top : List (String × FsTree))
  | fail (msg : String) (leftover : Bool)

/-- The staging artifacts in the working directory after a run of the plain
variant's `downloadFramework`: contents of `temp.zip` if present, whether
`__temp_extract__` is present, and the project target directory's tree if it
was created. -/
structure CwdState where
  tempZip : Option String
  tempExtractPresent : Bool
  target : Option FsTree

/-- `downloadFramework` of the plain variant (`src/install.js` lines
164-178), composed from the embedded `downloadFile` and `extractZip`:
download `zipUrl version` to `temp.zip`, `mkdirSync(targetDir)`, extract,
`unlinkSync(temp.zip)`, return `countFiles(targetDir)`.  If the download
fails, `downloadFile` has already removed `temp.zip` and the error
propagates before `targetDir` is created.  If `execAsync` inside `extractZip`
rejects, the error propagates out of `downloadFramework` at line 173: the
`fs.unlinkSync(tempZip)` of line 175 and the `fs.rmSync(tempExtract)` of line
161 are both skipped, so `temp.zip` (and any partial `__temp_extract__`)
remain. -/
def downloadFrameworkSimple (net : String → DlEvent)
    (unzip : String → ExtractOutcome) (fuel : Nat) (version : String) :
    Except String Nat × CwdState :=
  let dl := downloadFile net fuel (zipUrl version)
  match dl.1, dl.2 with
  | DlResult.pending, d => (Except.error "unsettled", ⟨d, false, none⟩)
  | DlResult.err m, d => (Except.error m, ⟨d, false, none⟩)
  | DlResult.ok, d =>
    let body := d.getD ""
    match unzip body with
    | ExtractOutcome.fail m leftover =>
        (Except.error m, ⟨some body, leftover, some (FsTree.dir [])⟩)
    | ExtractOutcome.ok top =>
        let t := FsTree.dir (sourceEntries top)
        (Except.ok (countFiles t), ⟨none, false, some t⟩)

/-- A network operation performed by the cached variant's
`downloadFramework`: the liveness probe's GET, or starting a download. -/
inductive NetOp
  | probe
  | download (url : String)
deriving DecidableEq

/-- `downloadFramework` of the cached variant (`part_001` lines 168-187),
together with the list of network operations it performs, in order.  Source
order: if `fs.existsSync(localZipPath)` then extract the local bundle into
the target and return its file count — no network operation at all;
otherwise run `checkServerAvailability` and throw
`CDN server is currently unreachable` when it is `false`; otherwise download
`zipUrl version` to `temp.zip`, extract, unlink, count.  `zipAt` gives the
bytes of a local zip file, `unzip` the archive tool's behavior. -/
def downloadFrameworkCached (fsExists : String → Bool) (zipAt : String → String)
    (probeRes : ProbeOutcome) (net : String → DlEvent)
    (unzip : String → ExtractOutcome) (fuel : Nat)
    (releasesDir version : String) : Except String Nat × List NetOp :=
  let lzp := localZipPath releasesDir version
  if fsExists lzp then
    match unzip (zipAt lzp) with
    | ExtractOutcome.ok top =>
        (Except.ok (countFiles (FsTree.dir (sourceEntries top))), [])
    | ExtractOutcome.fail m _ => (Except.error m, [])
  else if checkServerAvailability probeRes = false then
    (Except.error "CDN server is currently unreachable", [NetOp.probe])
  else
    let dl := downloadFile net fuel (zipUrl version)
    let ops := [NetOp.probe, NetOp.download (zipUrl version)]
    match dl.1, dl.2 with
    | DlResult.pending, _ => (Except.error "unsettled", ops)
    | DlResult.err m, _ => (Except.error m, ops)
    | DlResult.ok, d =>
      match unzip (d.getD "") with
      | ExtractOutcome.fail m _ => (Except.error m, ops)
      | ExtractOutcome.ok top =>
          (Except.ok (countFiles (FsTree.dir (sourceEntries top))), ops)

/-! ## CLI argument handling (`main`, `src/install.js` lines 180-229) -/

/-- What `main` does with its arguments before any network work:
`showHelp` for `--help`/`-h`, `listVersions` for `--list-versions`/`-lv`,
`directInstall` when the first argument is a usable project name (validated,
then installed), `interactiveInstall` otherwise (the prompt loop at lines
206-218). -/
inductive Mode
  | showHelp
  | listVersions
  | interactiveInstall (version : String)
  | directInstall (name : String) (version : String)
deriving DecidableEq

/-- `args[1] || 'latest'` (`src/install.js` line 197): an absent — or empty,
JS falsy — second positional argument yields the literal `latest`. -/
def versionArg (args : List String) : String :=
  match args.get? 1 with
  | some v => if v = "" then "latest" else v
  | none => "latest"

/-- `firstArg.startsWith('-')` (`src/install.js` line 196): with the
single-character pattern `-` this is exactly "the first character is `-`". -/
def startsWithDash (s : String) : Bool :=
  match s.toList with
  | [] => false
  | c :: _ => c == '-'

/-- The argument dispatch of `main` (`src/install.js` lines 180-229):
flag checks first, then
`projectName = firstArg && !firstArg.startsWith('-') ? firstArg : null`
(line 196) decides between the direct and the interactive path. -/
def parseArgs (args : List String) : Mode :=
  match args.get? 0 with
  | none => Mode.interactiveInstall (versionArg args)
  | some a =>
    if a = "--help" ∨ a = "-h" then Mode.showHelp
    else if a = "--list-versions" ∨ a = "-lv" then Mode.listVersions
    else if a ≠ "" ∧ ¬ startsWithDash a then
      Mode.directInstall a (versionArg args)
    else Mode.interactiveInstall (versionArg args)

/-! ## Concrete fixtures used by witnesses and counterexamples -/

/-- A concrete network for the witnesses: `u0` 302-redirects to `u1`,
`u1` 301-redirects to `u2`, and `u2` answers 200 with body `payload`. -/
def chainNet : String → HttpEvent := fun u =>
  if u = "u0" then HttpEvent.response ⟨302, "Found", some "u1", none, ""⟩
  else if u = "u1" then
    HttpEvent.response ⟨301, "Moved Permanently", some "u2", none, ""⟩
  else if u = "u2" then HttpEvent.response ⟨200, "OK", none, none, "payload"⟩
  else HttpEvent.connError "ENOTFOUND"

/-- A 403 response that carries a rate-limit-reset header. -/
def rateLimited403 : HttpResponse :=
  ⟨403, "rate limit exceeded", none, some 1735689600, ""⟩

/-- A network that always answers with `rateLimited403`. -/
def net403 : String → HttpEvent := fun _ => HttpEvent.response rateLimited403

/-- A network that always answers 404. -/
def net404 : String → DlEvent :=
  fun _ => DlEvent.response ⟨404, "Not Found", none, none, "<html>404</html>"⟩

/-- A network that always serves a 200 response whose body is not a valid
zip archive. -/
def netZipOk : String → DlEvent :=
  fun _ => DlEvent.response ⟨200, "OK", none, none, "corrupt-zip-bytes"⟩

/-- An archive tool that always rejects, leaving a partial extraction
directory behind. -/
def unzipFails : String → ExtractOutcome :=
  fun _ =>
    ExtractOutcome.fail "Command failed: unzip -q temp.zip -d __temp_extract__"
      true

/-- An archive tool that always succeeds with a one-file top level. -/
def unzipOneFile : String → ExtractOutcome :=
  fun _ => ExtractOutcome.ok [("a.txt", FsTree.file "A")]

/-- A local filesystem holding exactly the pre-staged bundle
`releases/latest/src.zip`. -/
def cacheFs : String → Bool := fun s => s == "releases/latest/src.zip"

/-- A local filesystem with no pre-staged bundle. -/
def emptyFs : String → Bool := fun _ => false

/-- Local zip bytes by path (constant). -/
def constZipAt : String → String := fun _ => "zipbytes"

end SimplInstaller

namespace SimplInstaller

/-! ## Claim theorems for the validator and the materializer -/

/-- `name.length === 0` is the same test as `name === ''`. -/
theorem length_zero_iff_empty (s : String) : s.length = 0 ↔ s = "" := by
  constructor
  · intro h
    cases s with
    | mk data =>
      have hd : data = [] := List.length_eq_zero.mp h
      subst hd
      rfl
  · intro h
    subst h
    rfl

/-- A top level that is not a single wrapping directory is left unchanged by
the normalization step. -/
theorem sourceEntries_of_not_single_dir (l : List (String × FsTree))
    (h : ∀ n es, l ≠ [(n, FsTree.dir es)]) : sourceEntries l = l := by
  match l, h with
  | [], _ => rfl
  | [(n, FsTree.file c)], _ => rfl
  | [(n, FsTree.dir es)], h => exact absurd rfl (h n es)
  | (a, FsTree.file c) :: e2 :: rest, _ => rfl
  | (a, FsTree.dir es) :: e2 :: rest, _ => rfl

/-- C1: `validateProjectName` checks its rules in order with the first failure
winning: an empty or absent name yields `EmptyName` independently of the
filesystem (no filesystem check occurs); otherwise a name with a character
outside `[A-Za-z0-9_-]` yields `InvalidCharacters`, again independently of the
filesystem; otherwise an existing filesystem entry at the name yields
`DirectoryExists`; otherwise no error.  The validator is a pure function of
its input and the filesystem state, so repeated calls agree. -/
theorem validateProjectName_ordered_rules
    (fs fs2 : String → Bool) (name : Option String) :
    ((name = none ∨ name = some "") →
        validateProjectName fs name = some ValidationError.EmptyName ∧
        validateProjectName fs name = validateProjectName fs2 name) ∧
    (∀ n, name = some n → n ≠ "" → (¬ n.toList.all isValidNameChar) →
        validateProjectName fs name = some ValidationError.InvalidCharacters ∧
        validateProjectName fs name = validateProjectName fs2 name) ∧
    (∀ n, name = some n → n ≠ "" → n.toList.all isValidNameChar →
        fs n = true →
        validateProjectName fs name = some ValidationError.DirectoryExists) ∧
    (∀ n, name = some n → n ≠ "" → n.toList.all isValidNameChar →
        fs n = false →
        validateProjectName fs name = none) := by
  refine ⟨?_, ?_, ?_, ?_⟩
  · rintro (rfl | rfl) <;> simp [validateProjectName]
  · rintro n rfl hne hbad
    have hlen : ¬ n.length = 0 := fun h0 => hne ((length_zero_iff_empty n).mp h0)
    have hall : n.toList.all isValidNameChar = false := by
      cases hcase : n.toList.all isValidNameChar with
      | false => rfl
      | true => exact absurd hcase hbad
    have hb : nameRegexTest n = false := by
      unfold nameRegexTest
      rw [hall, Bool.and_false]
    simp [validateProjectName, hlen, hb]
  · rintro n rfl hne hok hfs
    have hlen : ¬ n.length = 0 := fun h0 => hne ((length_zero_iff_empty n).mp h0)
    have hb : nameRegexTest n = true := by
      unfold nameRegexTest
      rw [hok, Bool.and_true]
      exact decide_eq_true hne
    simp [validateProjectName, hlen, hb, hfs]
  · rintro n rfl hne hok hfs
    have hlen : ¬ n.length = 0 := fun h0 => hne ((length_zero_iff_empty n).mp h0)
    have hb : nameRegexTest n = true := by
      unfold nameRegexTest
      rw [hok, Bool.and_true]
      exact decide_eq_true hne
    simp [validateProjectName, hlen, hb, hfs]

/-- Witness for C1 at concrete inputs: an empty name, a name with a `!`, an
existing name, and a fresh name, over a concrete one-entry filesystem. -/
theorem validateProjectName_ordered_rules_witness :
    validateProjectName (fun s => s == "taken") (some "") =
        some ValidationError.EmptyName ∧
    validateProjectName (fun s => s == "taken") (some "bad!name") =
        some ValidationError.InvalidCharacters ∧
    validateProjectName (fun s => s == "taken") (some "taken") =
        some ValidationError.DirectoryExists ∧
    validateProjectName (fun s => s == "taken") (some "my-project_1") = none := by
  refine ⟨?_, ?_, ?_, ?_⟩
  · exact ((validateProjectName_ordered_rules (fun s => s == "taken")
      (fun _ => false) (some "")).1 (Or.inr rfl)).1
  · exact ((validateProjectName_ordered_rules (fun s => s == "taken")
      (fun _ => false) (some "bad!name")).2.1 "bad!name" rfl (by decide)
      (by decide)).1
  · exact (validateProjectName_ordered_rules (fun s => s == "taken")
      (fun _ => false) (some "taken")).2.2.1 "taken" rfl (by decide)
      (by decide) (by decide)
  · exact (validateProjectName_ordered_rules (fun s => s == "taken")
      (fun _ => false) (some "my-project_1")).2.2.2 "my-project_1" rfl
      (by decide) (by decide) (by decide)

/-- C3: the Archive Materializer normalizes a single wrapping root directory —
a top level `[(w, dir payload)]` materializes as exactly `payload`, the wrapper
absent — while a top level that is not a single directory materializes
unchanged; consequently a wrapped payload and the same payload laid out
directly produce identical results.  The returned number is the recursive file
(non-directory) count of the target directory. -/
theorem extractZip_normalizes_wrapper (w : String)
    (payload archiveTop : List (String × FsTree)) :
    extractZip [(w, FsTree.dir payload)] = FsTree.dir payload ∧
    ((∀ n es, archiveTop ≠ [(n, FsTree.dir es)]) →
        extractZip archiveTop = FsTree.dir archiveTop) ∧
    ((∀ n es, payload ≠ [(n, FsTree.dir es)]) →
        extractZip [(w, FsTree.dir payload)] = extractZip payload) ∧
    (materialize archiveTop).2 = countFiles (materialize archiveTop).1 := by
  refine ⟨rfl, ?_, ?_, rfl⟩
  · intro h
    show FsTree.dir (sourceEntries archiveTop) = FsTree.dir archiveTop
    rw [sourceEntries_of_not_single_dir archiveTop h]
  · intro h
    show FsTree.dir (sourceEntries [(w, FsTree.dir payload)]) =
      FsTree.dir (sourceEntries payload)
    rw [sourceEntries_of_not_single_dir payload h]
    rfl

/-- Witness for C3 at the spec's example: a wrapper `pkg/` around
`a.txt` and `sub/b.txt` versus the same two entries laid out directly;
both materialize to the same tree, with file count 2. -/
theorem extractZip_normalizes_wrapper_witness :
    extractZip [("pkg", FsTree.dir
        [("a.txt", FsTree.file "A"),
         ("sub", FsTree.dir [("b.txt", FsTree.file "B")])])] =
      FsTree.dir [("a.txt", FsTree.file "A"),
         ("sub", FsTree.dir [("b.txt", FsTree.file "B")])] ∧
    extractZip [("a.txt", FsTree.file "A"),
         ("sub", FsTree.dir [("b.txt", FsTree.file "B")])] =
      FsTree.dir [("a.txt", FsTree.file "A"),
         ("sub", FsTree.dir [("b.txt", FsTree.file "B")])] ∧
    (materialize [("pkg", FsTree.dir
        [("a.txt", FsTree.file "A"),
         ("sub", FsTree.dir [("b.txt", FsTree.file "B")])])]).2 = 2 := by
  refine ⟨?_, ?_, ?_⟩
  · exact (extractZip_normalizes_wrapper "pkg"
      [("a.txt", FsTree.file "A"),
       ("sub", FsTree.dir [("b.txt", FsTree.file "B")])] []).1
  · refine (extractZip_normalizes_wrapper "pkg" []
      [("a.txt", FsTree.file "A"),
       ("sub", FsTree.dir [("b.txt", FsTree.file "B")])]).2.1 ?_
    intro n es h
    simp at h
  · rfl

/-! ## Claim theorems for Transport and the probe -/

/-- C7: on a redirect chain of `n` hops (each 301/302 with a `Location`
header) ending in a 200 response, `fetchUrl` returns the final response's
body and performs exactly `n + 1` requests.  There is no depth limit: the
statement holds for every `n`, the fuel being only the totality bound of the
embedding (any fuel above `n` gives the code's behavior). -/
theorem fetchUrl_follows_redirect_chain
    (net : String → HttpEvent) (url : String) (n : Nat) (body : String)
    (h : RedirectChain net url n body) :
    ∀ fuel, n < fuel → fetchUrl net fuel url = (FetchResult.ok body, n + 1) := by
  induction h with
  | final hnet h200 =>
    intro fuel hf
    match fuel, hf with
    | (f+1), _ =>
      simp [fetchUrl, hnet, h200]
  | hop hnet hredir hloc _ ih =>
    intro fuel hf
    match fuel, hf with
    | (f+1), hf =>
    have hn := Nat.lt_of_succ_lt_succ hf
    simp [fetchUrl, hnet, if_pos hredir, hloc, ih _ hn]

/-- Witness for C7: the concrete two-hop chain of `chainNet` yields the final
body in exactly three requests. -/
theorem fetchUrl_follows_redirect_chain_witness :
    RedirectChain chainNet "u0" 2 "payload" ∧
    fetchUrl chainNet 3 "u0" = (FetchResult.ok "payload", 3) := by
  have h : RedirectChain chainNet "u0" 2 "payload" := by
    refine @RedirectChain.hop chainNet "u0" "u1"
      ⟨302, "Found", some "u1", none, ""⟩ 1 "payload" rfl (Or.inl rfl) rfl ?_
    refine @RedirectChain.hop chainNet "u1" "u2"
      ⟨301, "Moved Permanently", some "u2", none, ""⟩ 0 "payload" rfl
      (Or.inr rfl) rfl ?_
    exact @RedirectChain.final chainNet "u2" ⟨200, "OK", none, none, "payload"⟩
      rfl rfl
  exact ⟨h, fetchUrl_follows_redirect_chain chainNet "u0" 2 "payload" h 3
    (by decide)⟩

/-- C5 (amended): `fetchUrl` classifies every final non-200 response — a 403
carrying rate-limit headers included — as the generic transport error carrying
the status code and message (`HTTP <code>: <message>` rejection,
`src/install.js` line 23).  The response's rate-limit headers are never
consulted and no `rateLimited` result is ever produced (immediate from the
equality, the constructors being distinct). -/
theorem fetchUrl_non200_generic_transport_error
    (net : String → HttpEvent) (url : String) (n : Nat) (r : HttpResponse)
    (h : ResolvesTo net url n r) (h200 : r.statusCode ≠ 200) :
    ∀ fuel, n < fuel →
      fetchUrl net fuel url =
        (FetchResult.transportError r.statusCode
          (statusMessageOr r.statusMessage), n + 1) := by
  induction h with
  | final hnet hnr =>
    intro fuel hf
    match fuel, hf with
    | (f+1), _ =>
      simp [fetchUrl, hnet, if_neg hnr, if_pos h200]
  | hop hnet hredir hloc _ ih =>
    intro fuel hf
    match fuel, hf with
    | (f+1), hf =>
    have hn := Nat.lt_of_succ_lt_succ hf
    simp [fetchUrl, hnet, if_pos hredir, hloc, ih h200 _ hn]

/-- Counterexample to C5 as stated: on a 403 response carrying a
rate-limit-reset header, `fetchUrl` produces the generic transport error —
not `rateLimited` with the parsed reset time, which the claim demands. -/
theorem fetchUrl_403_ratelimit_header_counterexample :
    fetchUrl net403 1 "https://api.example.com/repo" =
      (FetchResult.transportError 403 "rate limit exceeded", 1) ∧
    rateLimited403.rateLimitReset = some 1735689600 ∧
    (fetchUrl net403 1 "https://api.example.com/repo").1 ≠
      FetchResult.rateLimited 1735689600 := by
  refine ⟨rfl, rfl, ?_⟩
  intro hcontra
  exact FetchResult.noConfusion hcontra

/-- Witness for the amended C5 at a concrete input: the one-response 403
network resolves in zero hops, and `fetchUrl` returns the generic transport
error after one request. -/
theorem fetchUrl_non200_generic_transport_error_witness :
    ResolvesTo net403 "u" 0 rateLimited403 ∧
    fetchUrl net403 1 "u" =
      (FetchResult.transportError 403 "rate limit exceeded", 1) := by
  have h : ResolvesTo net403 "u" 0 rateLimited403 :=
    ResolvesTo.final rfl (by decide)
  exact ⟨h, fetchUrl_non200_generic_transport_error net403 "u" 0 rateLimited403
    h (by decide) 1 (by decide)⟩

/-- C4: whatever the network does, if `downloadFile` settles with an error —
a request error, a write-stream error, or a non-200 final status — then no
file remains at the destination path; if it settles successfully, the
destination holds the complete body of a 200 response served by the network. -/
theorem downloadFile_no_truncated_artifact
    (net : String → DlEvent) (fuel : Nat) (url : String) :
    (∀ m, (downloadFile net fuel url).1 = DlResult.err m →
        (downloadFile net fuel url).2 = none) ∧
    ((downloadFile net fuel url).1 = DlResult.ok →
        ∃ u r, net u = DlEvent.response r ∧ r.statusCode = 200 ∧
          (downloadFile net fuel url).2 = some r.body) := by
  induction fuel generalizing url with
  | zero =>
    constructor
    · intro m h
      exact DlResult.noConfusion h
    · intro h
      exact DlResult.noConfusion h
  | succ f ih =>
    constructor
    · intro m h
      cases hnet : net url with
      | connError m2 => simp [downloadFile, hnet]
      | writeError m2 => simp [downloadFile, hnet]
      | response r =>
        by_cases hred : r.statusCode = 302 ∨ r.statusCode = 301
        · cases hloc : r.location with
          | some next =>
            have heq : downloadFile net (f+1) url = downloadFile net f next := by
              simp [downloadFile, hnet, if_pos hred, hloc]
            rw [heq] at h ⊢
            exact (ih next).1 m h
          | none =>
            rw [show downloadFile net (f+1) url = (DlResult.pending, some "")
              from by simp [downloadFile, hnet, if_pos hred, hloc]] at h
            exact DlResult.noConfusion h
        · by_cases h200 : r.statusCode ≠ 200
          · simp [downloadFile, hnet, if_neg hred, if_pos h200]
          · rw [show downloadFile net (f+1) url = (DlResult.ok, some r.body)
              from by simp [downloadFile, hnet, if_neg hred, if_neg h200]] at h
            exact DlResult.noConfusion h
    · intro h
      cases hnet : net url with
      | connError m2 =>
        rw [show downloadFile net (f+1) url = (DlResult.err m2, none)
          from by simp [downloadFile, hnet]] at h
        exact DlResult.noConfusion h
      | writeError m2 =>
        rw [show downloadFile net (f+1) url = (DlResult.err m2, none)
          from by simp [downloadFile, hnet]] at h
        exact DlResult.noConfusion h
      | response r =>
        by_cases hred : r.statusCode = 302 ∨ r.statusCode = 301
        · cases hloc : r.location with
          | some next =>
            have heq : downloadFile net (f+1) url = downloadFile net f next := by
              simp [downloadFile, hnet, if_pos hred, hloc]
            rw [heq] at h ⊢
            exact (ih next).2 h
          | none =>
            rw [show downloadFile net (f+1) url = (DlResult.pending, some "")
              from by simp [downloadFile, hnet, if_pos hred, hloc]] at h
            exact DlResult.noConfusion h
        · by_cases h200 : r.statusCode ≠ 200
          · rw [show downloadFile net (f+1) url =
                (DlResult.err ("HTTP " ++ toString r.statusCode ++ ": " ++
                  statusMessageOr r.statusMessage), none)
              from by simp [downloadFile, hnet, if_neg hred, if_pos h200]] at h
            exact DlResult.noConfusion h
          · have hs : r.statusCode = 200 := not_not.mp h200
            refine ⟨url, r, hnet, hs, ?_⟩
            simp [downloadFile, hnet, if_neg hred, if_neg h200]

/-- Witness for C4 at a concrete input: a 404 download settles with the
HTTP error and leaves no file at the destination. -/
theorem downloadFile_no_truncated_artifact_witness :
    (downloadFile net404 1 "https://cdn.example/src.zip").1 =
      DlResult.err "HTTP 404: Not Found" ∧
    (downloadFile net404 1 "https://cdn.example/src.zip").2 = none :=
  ⟨rfl, (downloadFile_no_truncated_artifact net404 1
    "https://cdn.example/src.zip").1 "HTTP 404: Not Found" rfl⟩

/-- C6: the liveness probe is a total function into `Bool` — it cannot throw —
and it answers `true` exactly when the endpoint responds 200 within the
timeout; a non-200 response, a connection error and a timeout all yield
`false`. -/
theorem checkServerAvailability_true_iff_200 (o : ProbeOutcome) :
    (checkServerAvailability o = true ↔ o = ProbeOutcome.response 200) ∧
    (checkServerAvailability o = false ↔ o ≠ ProbeOutcome.response 200) := by
  cases o with
  | response c => simp [checkServerAvailability]
  | connError => simp [checkServerAvailability]
  | timeout => simp [checkServerAvailability]

/-- Witness for C6 at the four concrete probe outcomes. -/
theorem checkServerAvailability_true_iff_200_witness :
    checkServerAvailability (ProbeOutcome.response 200) = true ∧
    checkServerAvailability (ProbeOutcome.response 503) = false ∧
    checkServerAvailability ProbeOutcome.connError = false ∧
    checkServerAvailability ProbeOutcome.timeout = false :=
  ⟨(checkServerAvailability_true_iff_200 (ProbeOutcome.response 200)).1.mpr rfl,
   (checkServerAvailability_true_iff_200 (ProbeOutcome.response 503)).2.mpr
     (by decide),
   (checkServerAvailability_true_iff_200 ProbeOutcome.connError).2.mpr
     (by decide),
   (checkServerAvailability_true_iff_200 ProbeOutcome.timeout).2.mpr
     (by decide)⟩

/-! ## Claim theorems for the Source Resolver and the CLI surface -/

/-- C2: the cached variant's `downloadFramework` checks the local cache
first: when `releasesDir/version/src.zip` exists, the local-cache path is
selected and the network-operation trace is empty — the whole outcome is
moreover independent of the probe, the network and the fuel; only when the
bundle is absent is the liveness probe run, and when the probe fails the run
fails with the source-unavailable error after the probe alone, before any
download is started. -/
theorem downloadFramework_cache_first
    (fsExists : String → Bool) (zipAt : String → String)
    (probeRes probeRes2 : ProbeOutcome) (net net2 : String → DlEvent)
    (unzip : String → ExtractOutcome) (fuel fuel2 : Nat)
    (releasesDir version : String) :
    (fsExists (localZipPath releasesDir version) = true →
      (downloadFrameworkCached fsExists zipAt probeRes net unzip fuel
          releasesDir version).2 = [] ∧
      downloadFrameworkCached fsExists zipAt probeRes net unzip fuel
          releasesDir version =
        downloadFrameworkCached fsExists zipAt probeRes2 net2 unzip fuel2
          releasesDir version) ∧
    (fsExists (localZipPath releasesDir version) = false →
      checkServerAvailability probeRes = false →
      downloadFrameworkCached fsExists zipAt probeRes net unzip fuel
          releasesDir version =
        (Except.error "CDN server is currently unreachable", [NetOp.probe])) := by
  constructor
  · intro hfs
    cases hu : unzip (zipAt (localZipPath releasesDir version)) with
    | ok top =>
      constructor <;> simp [downloadFrameworkCached, hfs, hu]
    | fail m leftover =>
      constructor <;> simp [downloadFrameworkCached, hfs, hu]
  · intro hfs hprobe
    simp [downloadFrameworkCached, hfs, hprobe]

/-- Witness for C2 at concrete inputs: with the bundle
`releases/latest/src.zip` pre-staged the trace is empty (and the run does
not depend on a dead network), and with no bundle and a timed-out probe the
run fails with the unreachable error after the probe alone. -/
theorem downloadFramework_cache_first_witness :
    cacheFs (localZipPath "releases" "latest") = true ∧
    (downloadFrameworkCached cacheFs constZipAt ProbeOutcome.timeout net404
        unzipOneFile 1 "releases" "latest").2 = [] ∧
    emptyFs (localZipPath "releases" "latest") = false ∧
    downloadFrameworkCached emptyFs constZipAt ProbeOutcome.timeout net404
        unzipOneFile 1 "releases" "latest" =
      (Except.error "CDN server is currently unreachable", [NetOp.probe]) := by
  refine ⟨rfl, ?_, rfl, ?_⟩
  · exact ((downloadFramework_cache_first cacheFs constZipAt
      ProbeOutcome.timeout ProbeOutcome.timeout net404 net404 unzipOneFile 1 1
      "releases" "latest").1 rfl).1
  · exact (downloadFramework_cache_first emptyFs constZipAt
      ProbeOutcome.timeout ProbeOutcome.timeout net404 net404 unzipOneFile 1 1
      "releases" "latest").2 rfl rfl

/-- C8 (code bug): evaluating the plain variant's pipeline where the
download succeeds but extraction fails.  The run fails, yet `temp.zip` —
written outside the project directory — remains, together with the partial
extraction directory: `fs.unlinkSync(tempZip)` (`src/install.js` line 175)
and the staging cleanup (`line 161`) are skipped when `extractZip` throws.
On a fully successful run both staging artifacts are cleaned up, as the last
two conjuncts show — the violation is specific to the failure path. -/
theorem downloadFramework_extraction_failure_leaves_artifacts :
    (downloadFrameworkSimple netZipOk unzipFails 1 "latest").1 =
      Except.error "Command failed: unzip -q temp.zip -d __temp_extract__" ∧
    (downloadFrameworkSimple netZipOk unzipFails 1 "latest").2.tempZip =
      some "corrupt-zip-bytes" ∧
    (downloadFrameworkSimple netZipOk unzipFails 1
        "latest").2.tempExtractPresent = true ∧
    (downloadFrameworkSimple netZipOk unzipOneFile 1 "latest").2.tempZip =
      none ∧
    (downloadFrameworkSimple netZipOk unzipOneFile 1
        "latest").2.tempExtractPresent = false :=
  ⟨rfl, rfl, rfl, rfl, rfl⟩

/-- C9: a first CLI argument that starts with `-` and is none of the
recognized flags is not taken as a project name (so it is never validated or
rejected): `main` behaves as if no name were supplied and enters the
interactive prompt loop. -/
theorem unrecognized_dash_arg_goes_interactive
    (a : String) (rest : List String)
    (hdash : startsWithDash a = true)
    (h1 : a ≠ "--help") (h2 : a ≠ "-h")
    (h3 : a ≠ "--list-versions") (h4 : a ≠ "-lv") :
    parseArgs (a :: rest) = Mode.interactiveInstall (versionArg (a :: rest)) := by
  simp [parseArgs, h1, h2, h3, h4, hdash]

/-- Witness for C9 at the concrete invocation `installer -x`: the flag-like
argument leads to the interactive mode with the default version, not to a
rejection. -/
theorem unrecognized_dash_arg_goes_interactive_witness :
    startsWithDash "-x" = true ∧
    parseArgs ["-x"] = Mode.interactiveInstall "latest" :=
  ⟨by decide, unrecognized_dash_arg_goes_interactive "-x" [] (by decide)
    (by decide) (by decide) (by decide) (by decide)⟩

/-- C10: with no second positional argument the version is the literal
`latest`; the version string is interpolated verbatim and unvalidated into
the download URL and the cache path; and for every version string whatsoever
— existing on the CDN or not — the cached pipeline, on a cache miss with a
live server, goes straight to downloading the interpolated URL, with no
check that the version names an existing release. -/
theorem version_defaults_to_latest_and_is_unvalidated
    (args : List String) (v releasesDir : String)
    (fsE : String → Bool) (zipAt : String → String) (probeRes : ProbeOutcome)
    (net : String → DlEvent) (unzip : String → ExtractOutcome) (fuel : Nat) :
    (args.get? 1 = none → versionArg args = "latest") ∧
    zipUrl v = CDN_BASE ++ "/" ++ v ++ "/src.zip" ∧
    localZipPath releasesDir v = releasesDir ++ "/" ++ v ++ "/src.zip" ∧
    (fsE (localZipPath releasesDir v) = false →
      checkServerAvailability probeRes = true →
      (downloadFrameworkCached fsE zipAt probeRes net unzip fuel
          releasesDir v).2 = [NetOp.probe, NetOp.download (zipUrl v)]) := by
  refine ⟨?_, rfl, rfl, ?_⟩
  · intro h
    unfold versionArg
    rw [h]
  · intro hfs hprobe
    have hp : ¬ checkServerAvailability probeRes = false := by
      rw [hprobe]
      exact Bool.noConfusion
    cases hdl : (downloadFile net fuel (zipUrl v)).1 with
    | ok =>
      cases hu : unzip ((downloadFile net fuel (zipUrl v)).2.getD "") with
      | ok top => simp [downloadFrameworkCached, hfs, hp, hdl, hu]
      | fail m leftover => simp [downloadFrameworkCached, hfs, hp, hdl, hu]
    | err m => simp [downloadFrameworkCached, hfs, hp, hdl]
    | pending => simp [downloadFrameworkCached, hfs, hp, hdl]

/-- Witness for C10 at concrete inputs: the invocation `installer my-project`
defaults the version to `latest`, and the made-up version `no-such-9.9.9`
is interpolated into the URL and immediately downloaded (here answered 404)
on a cache miss with a live server. -/
theorem version_defaults_to_latest_and_is_unvalidated_witness :
    versionArg ["my-project"] = "latest" ∧
    zipUrl "no-such-9.9.9" =
      "https://cdn.simpl.iwanvanderwal.nl/framework/no-such-9.9.9/src.zip" ∧
    (downloadFrameworkCached emptyFs constZipAt (ProbeOutcome.response 200)
        net404 unzipOneFile 1 "releases" "no-such-9.9.9").2 =
      [NetOp.probe, NetOp.download (zipUrl "no-such-9.9.9")] := by
  refine ⟨?_, rfl, ?_⟩
  · exact (version_defaults_to_latest_and_is_unvalidated ["my-project"]
      "no-such-9.9.9" "releases" emptyFs constZipAt (ProbeOutcome.response 200)
      net404 unzipOneFile 1).1 rfl
  · exact (version_defaults_to_latest_and_is_unvalidated ["my-project"]
      "no-such-9.9.9" "releases" emptyFs constZipAt (ProbeOutcome.response 200)
      net404 unzipOneFile 1).2.2.2 rfl rfl

end SimplInstaller
